import Mathlib

set_option linter.unusedVariables false

/-!
Verification development for the chit fund analysis engine
(package `chit_fund_analyzer`: `models.py`, `analyzer.py`, `utils.py`,
`comparative.py`, `exceptions.py`).

Modelling conventions (shallow embedding):
* Python `Decimal` values are modelled as exact rationals (`ℚ`).  Decimal
  arithmetic at 28 significant digits is exact on every concrete quantity the
  theorems below evaluate, and every structural equation proved here is the
  literal expression the source computes.
* Python `int` fields are modelled as `ℤ`.
* Fallible code is modelled with `Except PyErr`.  The exception class that a
  `raise` site instantiates is recorded in the `PyErr` constructor, mirroring
  `exceptions.py` plus the pydantic framework error that field validators
  produce (a `ValueError` raised inside a pydantic validator surfaces as
  `pydantic.ValidationError`, a class unrelated to the package hierarchy).
* The numeric root finder `numpy_financial.irr` is external library code; the
  fragments of `analyzer.calculate_irr` / `comparative._calculate_annual_irr`
  that run after the library call are embedded as functions of the library
  call outcome, and the net present value polynomial is defined here so that
  facts about existence of roots can be stated.
-/

/-- Exception classes of `exceptions.py`, as named class constants.
`chitAnalysisError` is the base class `ChitFundAnalysisError`;
`chitValidationError`, `chitCalculationError` and `chitConfigurationError`
each subclass the base directly (see `excSuperclass`).
`pydanticValidationError` is the framework class pydantic raises when a field
or cross-field validator of `ChitFundConfig` fails. -/
inductive ErrKind where
  | pydanticValidationError
  | chitAnalysisError
  | chitValidationError
  | chitCalculationError
  | chitConfigurationError
deriving Repr, DecidableEq

/-- Immediate superclass of each exception class, translated from the class
headers in `exceptions.py` (`pydanticValidationError` is framework code and
is outside the package hierarchy). -/
def excSuperclass : ErrKind → Option ErrKind
  | .pydanticValidationError => none
  | .chitAnalysisError => none
  | .chitValidationError => some .chitAnalysisError
  | .chitCalculationError => some .chitAnalysisError
  | .chitConfigurationError => some .chitAnalysisError

/-- Reflexive-transitive subclass test over `excSuperclass` (Python
`issubclass`). The hierarchy has depth one, so one superclass step suffices. -/
def isSubclassOf (a b : ErrKind) : Bool :=
  a = b || excSuperclass a = some b

/-- Raised Python exception: the class raised at the raise site plus the
message string built there. -/
structure PyErr where
  kind : ErrKind
  msg : String
deriving Repr, DecidableEq

deriving instance DecidableEq for Except

/-- Class of the error of a fallible result, when it is an error. -/
def resultErrKind {α : Type} : Except PyErr α → Option ErrKind
  | .error e => some e.kind
  | .ok _ => none

/-- Raw field values handed to the `ChitFundConfig` constructor before any
validation runs (the keyword arguments of `ChitFundConfig(...)`). -/
structure RawConfig where
  total_installments : ℤ
  current_installment_number : ℤ
  full_chit_value : ℚ
  chit_frequency_per_year : ℤ
  previous_installments : List ℚ
  bid_amount : ℚ
  winner_installment_amount : Option ℚ
deriving Repr, DecidableEq

/-- Validated configuration, the state of a successfully constructed
`ChitFundConfig` (`models.py` lines 11-111). -/
structure ChitFundConfig where
  total_installments : ℤ
  current_installment_number : ℤ
  full_chit_value : ℚ
  chit_frequency_per_year : ℤ
  previous_installments : List ℚ
  bid_amount : ℚ
  winner_installment_amount : Option ℚ
deriving Repr, DecidableEq

/-- Construction of `ChitFundConfig` with pydantic validation, translated
from `models.py`.  Checks run in declared field order: the `Field`
constraints (`gt`, `le`) and then the cross-field `field_validator` of each
field.  The truthiness guards of the validators (`if total and ...`,
`if current and ...`, `if chit_value and ...`) are satisfied exactly when the
guarded earlier field passed its own checks, which in this sequential model
has already happened by the time the guard runs; pydantic aggregates the
error messages of all failing fields while this model returns the first, but
both fail on exactly the same inputs.  Messages drop the Python
f-string interpolated values. -/
def mkChitFundConfig (r : RawConfig) : Except PyErr ChitFundConfig :=
  if ¬ (0 < r.total_installments) then
    .error ⟨.pydanticValidationError, "total_installments: Input should be greater than 0"⟩
  else if ¬ (0 < r.current_installment_number) then
    .error ⟨.pydanticValidationError, "current_installment_number: Input should be greater than 0"⟩
  else if r.current_installment_number > r.total_installments then
    .error ⟨.pydanticValidationError, "Current installment cannot exceed total installments"⟩
  else if ¬ (0 < r.full_chit_value) then
    .error ⟨.pydanticValidationError, "full_chit_value: Input should be greater than 0"⟩
  else if ¬ (0 < r.chit_frequency_per_year ∧ r.chit_frequency_per_year ≤ 12) then
    .error ⟨.pydanticValidationError, "chit_frequency_per_year: Input should be in 1..12"⟩
  else if (r.previous_installments.length : ℤ) ≠ r.current_installment_number - 1 then
    .error ⟨.pydanticValidationError, "Number of previous installments should be current minus one"⟩
  else if ¬ (0 < r.bid_amount) then
    .error ⟨.pydanticValidationError, "bid_amount: Input should be greater than 0"⟩
  else if r.bid_amount ≥ r.full_chit_value then
    .error ⟨.pydanticValidationError, "Bid amount cannot be >= full chit value"⟩
  else
    match r.winner_installment_amount with
    | none =>
        .ok ⟨r.total_installments, r.current_installment_number, r.full_chit_value,
             r.chit_frequency_per_year, r.previous_installments, r.bid_amount, none⟩
    | some w =>
        if ¬ (0 < w) then
          .error ⟨.pydanticValidationError, "winner_installment_amount: Input should be greater than 0"⟩
        else if w > (r.full_chit_value / (r.total_installments : ℚ)) * 2 then
          .error ⟨.pydanticValidationError, "Winner installment amount seems too high"⟩
        else
          .ok ⟨r.total_installments, r.current_installment_number, r.full_chit_value,
               r.chit_frequency_per_year, r.previous_installments, r.bid_amount, some w⟩

/-- Winner installment with default, from `models.py` lines 107-111:
the explicit amount when provided, else `full_chit_value / total_installments`. -/
def ChitFundConfig.get_winner_installment_amount (c : ChitFundConfig) : ℚ :=
  match c.winner_installment_amount with
  | some w => w
  | none => c.full_chit_value / (c.total_installments : ℚ)

namespace ChitFundAnalyzer

/-- Constructor-time check of `ChitFundAnalyzer` (`analyzer.py` lines 39-45):
raises the base `ChitFundAnalysisError` when `previous_installments` is empty
(Python falsy) while `current_installment_number > 1`. -/
def validate_config (c : ChitFundConfig) : Except PyErr Unit :=
  if c.previous_installments.isEmpty then
    if c.current_installment_number > 1 then
      .error ⟨.chitAnalysisError, "Previous installments required for current installment > 1"⟩
    else
      .ok ()
  else
    .ok ()

/-- Prize computation of `analyzer.py` lines 47-72:
`prize = full_chit_value - bid_amount - winner_installment`, raising the base
`ChitFundAnalysisError` when the result is not strictly positive (the Python
message interpolates the offending amount; the interpolation is dropped
here). -/
def calculate_prize_amount (c : ChitFundConfig) : Except PyErr ℚ :=
  let winner_installment := c.get_winner_installment_amount
  let prize_amount := c.full_chit_value - c.bid_amount - winner_installment
  if prize_amount ≤ 0 then
    .error ⟨.chitAnalysisError,
      "Prize amount must be positive. Check bid amount and winner installment values."⟩
  else
    .ok prize_amount

/-- Cashflow construction of `analyzer.py` lines 74-106: negated previous
installments, then the prize inflow, then `-winner_installment` repeated
`total_installments - current_installment_number` times (Python list
repetition with a negative count yields the empty list, as does `toNat` of a
negative difference; the final `Decimal(str(cf))` round-trip is the
identity). -/
def generate_cashflows (c : ChitFundConfig) (prize_amount : ℚ) : List ℚ :=
  let winner_installment := c.get_winner_installment_amount
  let previous_cashflows := c.previous_installments.map (fun amount => -amount)
  let prize_cashflow := [prize_amount]
  let remaining_installments := c.total_installments - c.current_installment_number
  let future_cashflows := List.replicate remaining_installments.toNat (-winner_installment)
  previous_cashflows ++ prize_cashflow ++ future_cashflows

/-- Tail of `analyzer.py` calculate_irr (lines 121-139) after the library
call `numpy_financial.irr`: the argument is the outcome of that call, with
`none` standing for the library returning `None`/NaN (no admissible root).
In that case the code raises the base `ChitFundAnalysisError` inside the
`try` block and the generic `except` wraps its message; otherwise the period
rate is annualized as `(1 + r) ^ frequency - 1` and both rates returned.
No sign-change precondition is checked anywhere in this function, and no
`CalculationError` is raised. -/
def calculate_irr_from_root (libraryRoot : Option ℚ) (frequency : ℕ) :
    Except PyErr (ℚ × ℚ) :=
  match libraryRoot with
  | none =>
      .error ⟨.chitAnalysisError,
        "IRR calculation error: IRR calculation failed. Check cashflow values."⟩
  | some period_irr =>
      .ok (period_irr, (1 + period_irr) ^ frequency - 1)

end ChitFundAnalyzer

/-- Sign validation helper of `utils.py` lines 55-67: true when the cashflows
contain at least one strictly positive and one strictly negative entry.
No caller anywhere in the package invokes it. -/
def validate_cashflow_signs (cashflows : List ℚ) : Bool :=
  let has_positive := cashflows.any (fun cf => cf > 0)
  let has_negative := cashflows.any (fun cf => cf < 0)
  has_positive && has_negative

/-- Net present value polynomial that `numpy_financial.irr` finds roots of:
`Σ cashflows[t] / (1 + r) ^ t`.  The library returns NaN exactly when no real
root with rate above -1 exists. -/
def npv (cashflows : List ℚ) (r : ℚ) : ℚ :=
  (cashflows.enum.map (fun p => p.2 / (1 + r) ^ p.1)).sum

/-- Linear installment interpolation of `utils.py` lines 234-264: for each
index `i` below `total_installments - 1`, emit
`min + (max - min) * (i / max 1 (total_installments - 2))`.  The
`full_chit_value` argument is accepted and unused, as in the source; the
Python float division feeding `Decimal(str(progress))` is modelled as exact
rational division. -/
def calculate_varying_installments (full_chit_value : ℚ) (total_installments : ℕ)
    (min_installment max_installment : ℚ) : List ℚ :=
  (List.range (total_installments - 1)).map (fun (i : ℕ) =>
    let progress : ℚ := (i : ℚ) / ((max 1 (total_installments - 2) : ℕ) : ℚ)
    min_installment + (max_installment - min_installment) * progress)

/-- SIP future value of `utils.py` lines 267-303.  When `annual_rate ≤ 0` the
function returns the plain sum of the installments.  Otherwise each
installment is scaled by `(1 + period_rate) ^ periods_remaining` where
`period_rate = (1 + annual_rate) ^ (1 / frequency) - 1` is an irrational real
computed in floating point; that scale is supplied here as the function
argument `growthFactor : ℕ → ℚ` (value of the float expression at each
remaining-period count), keeping the branch structure and accumulation
faithful while leaving the float power abstract. -/
def calculate_sip_future_value (growthFactor : ℕ → ℚ) (installments : List ℚ)
    (annual_rate : ℚ) : ℚ :=
  if annual_rate ≤ 0 then
    installments.sum
  else
    installments.enum.foldl
      (fun total_value p => total_value + p.2 * growthFactor (installments.length - p.1)) 0

/-- Lump sum future value of `utils.py` lines 306-337.  When
`annual_rate ≤ 0` or `periods ≤ 0` the principal is returned unchanged;
otherwise the principal is multiplied by the float-computed factor
`(1 + period_rate) ^ periods`, supplied abstractly as `growthFactor`. -/
def calculate_lump_sum_future_value (growthFactor : ℚ) (principal : ℚ)
    (annual_rate : ℚ) (periods : ℤ) : ℚ :=
  if annual_rate ≤ 0 ∨ periods ≤ 0 then
    principal
  else
    principal * growthFactor

/-- One scenario result of `comparative.py` (`ComparisonScenario` in
`models.py` lines 162-188), restricted to the fields the comparison step
reads or that the claims mention; `cashflows`, `total_invested`, `net_gain`
and `details` are carried by the source model but never read by the ranking
code. -/
structure ComparisonScenario where
  scenario_name : String
  annual_irr : ℚ
  final_absolute_value : ℚ
deriving Repr, DecidableEq

/-- Result of the three-way comparison (`ThreeWayComparisonResult` in
`models.py` lines 191-221), restricted to the claim-relevant fields; the
pass-through metadata fields (`chit_name`, `total_installments`,
`chit_value`, `frequency_per_year`) are copies of constructor inputs. -/
structure ThreeWayComparisonResult where
  scenario1 : ComparisonScenario
  scenario2 : ComparisonScenario
  scenario3 : ComparisonScenario
  best_scenario_name : String
  advantage_amount : ℚ
deriving Repr, DecidableEq

namespace ComparativeAnalyzer

/-- Value of `scenario_name` set by `analyze_early_win_scenario`
(`comparative.py` line 230). -/
def earlyWinScenarioName : String := "Early Win + Lump Sum"

/-- Value of `scenario_name` set by `analyze_late_win_scenario`
(`comparative.py` line 321). -/
def lateWinScenarioName : String := "Late Win (Last Installment)"

/-- Value of `scenario_name` set by `analyze_sip_scenario`
(`comparative.py` line 401). -/
def sipScenarioName : String := "SIP Investment"

/-- Key selection of `comparative.py` line 120:
`max(scenarios_dict, key=scenarios_dict.get)` over the dict built on lines
114-118 with keys, in insertion order, `Early Win + Lump Sum` / `Late Win` /
`SIP Investment` mapped to the three `final_absolute_value`s.  Python `max`
scans in insertion order and replaces the running best only on a strictly
greater value, so the first key attaining the maximum wins ties. -/
def bestScenarioName (v1 v2 v3 : ℚ) : String :=
  let best1 := ("Early Win + Lump Sum", v1)
  let best2 := if v2 > best1.2 then ("Late Win", v2) else best1
  let best3 := if v3 > best2.2 then ("SIP Investment", v3) else best2
  best3.1

/-- Descending insertion used to model Python
`sorted(values, reverse=True)`. -/
def insertDesc (x : ℚ) : List ℚ → List ℚ
  | [] => [x]
  | y :: ys => if x ≥ y then x :: y :: ys else y :: insertDesc x ys

/-- Descending sort modelling Python `sorted(values, reverse=True)`
(`comparative.py` line 121). -/
def sortDesc : List ℚ → List ℚ
  | [] => []
  | x :: xs => insertDesc x (sortDesc xs)

/-- Advantage computation of `comparative.py` lines 121-122:
`sorted_values[0] - sorted_values[1]` on the descending-sorted dict values
(the three-element list always has length above one, so the `else
Decimal(0)` branch is dead). -/
def advantageAmount (v1 v2 v3 : ℚ) : ℚ :=
  match sortDesc [v1, v2, v3] with
  | top :: second :: _ => top - second
  | _ => 0

/-- Ranking-and-assembly step of `compare_three_scenarios` (`comparative.py`
lines 113-134), as a function of the three already-analyzed scenarios. -/
def compareRank (s1 s2 s3 : ComparisonScenario) : ThreeWayComparisonResult :=
  { scenario1 := s1
    scenario2 := s2
    scenario3 := s3
    best_scenario_name :=
      bestScenarioName s1.final_absolute_value s2.final_absolute_value s3.final_absolute_value
    advantage_amount :=
      advantageAmount s1.final_absolute_value s2.final_absolute_value s3.final_absolute_value }

/-- Outcome of the `numpy_financial.irr` call inside
`_calculate_annual_irr`: either the call raised some exception, or it
returned a value, with `none` standing for `None`/NaN. -/
inductive IrrOutcome where
  | raised (msg : String)
  | value (root : Option ℚ)
deriving Repr, DecidableEq

/-- Per-scenario IRR fallback of `comparative.py` lines 416-438
(`_calculate_annual_irr`): a raised solver exception or a `None`/NaN root
yields `0.0`; a root `r` is annualized to `(1 + r) ^ frequency - 1`.  The
function is total: no outcome propagates an exception. -/
def calculate_annual_irr (frequency : ℕ) : IrrOutcome → ℚ
  | .raised _ => 0
  | .value none => 0
  | .value (some period_irr) => (1 + period_irr) ^ frequency - 1

end ComparativeAnalyzer

/-- Mathematical second-largest of three values, stated from the claim
wording (the value just below the maximum in the descending ranking,
counting multiplicity). -/
def secondLargest3 (a b c : ℚ) : ℚ :=
  max (min a b) (min (max a b) c)

set_option maxHeartbeats 1000000 in
/-- Helper: a successful `mkChitFundConfig` copies the raw fields verbatim
and establishes every validated invariant. -/
theorem mkChitFundConfig_ok (r : RawConfig) (c : ChitFundConfig)
    (h : mkChitFundConfig r = .ok c) :
    c.total_installments = r.total_installments ∧
    c.current_installment_number = r.current_installment_number ∧
    c.full_chit_value = r.full_chit_value ∧
    c.chit_frequency_per_year = r.chit_frequency_per_year ∧
    c.previous_installments = r.previous_installments ∧
    c.bid_amount = r.bid_amount ∧
    c.winner_installment_amount = r.winner_installment_amount ∧
    0 < c.total_installments ∧
    0 < c.current_installment_number ∧
    c.current_installment_number ≤ c.total_installments ∧
    0 < c.full_chit_value ∧
    0 < c.chit_frequency_per_year ∧ c.chit_frequency_per_year ≤ 12 ∧
    (c.previous_installments.length : ℤ) = c.current_installment_number - 1 ∧
    0 < c.bid_amount ∧
    c.bid_amount < c.full_chit_value := by
  rcases hw : r.winner_installment_amount with _ | w
  · simp only [mkChitFundConfig, hw] at h
    split_ifs at h with h1 h2 h3 h4 h5 h6 h7 h8
    injection h with h
    subst h
    push_neg at h1 h2 h4 h5 h6 h7 h8
    exact ⟨rfl, rfl, rfl, rfl, rfl, rfl, rfl, h1, h2, not_lt.mp h3, h4, h5.1, h5.2,
      h6, h7, h8⟩
  · simp only [mkChitFundConfig, hw] at h
    split_ifs at h with h1 h2 h3 h4 h5 h6 h7 h8 h9 h10
    injection h with h
    subst h
    push_neg at h1 h2 h4 h5 h6 h7 h8
    exact ⟨rfl, rfl, rfl, rfl, rfl, rfl, rfl, h1, h2, not_lt.mp h3, h4, h5.1, h5.2,
      h6, h7, h8⟩

set_option maxHeartbeats 1000000 in
/-- Helper: every construction failure of `mkChitFundConfig` carries the
pydantic framework error class (each raise site in the constructor is a
validator `ValueError`, surfaced by pydantic as its `ValidationError`). -/
theorem mkChitFundConfig_error_kind (r : RawConfig) (e : PyErr)
    (h : mkChitFundConfig r = .error e) : e.kind = ErrKind.pydanticValidationError := by
  rcases hw : r.winner_installment_amount with _ | w <;>
    simp only [mkChitFundConfig, hw] at h <;>
    split_ifs at h <;>
    injection h with h <;>
    subst h <;>
    rfl

/-- Helper: a nonempty list of negative rationals has a negative sum. -/
theorem list_sum_neg_of_forall_neg :
    ∀ (l : List ℚ), l ≠ [] → (∀ x ∈ l, x < 0) → l.sum < 0
  | [], hne, _ => absurd rfl hne
  | x :: xs, _, hneg => by
      rcases hxs : xs with _ | ⟨y, ys⟩
      · simpa using hneg x (by simp)
      · have hx : x < 0 := hneg x (by simp)
        have hs : xs.sum < 0 := by
          rw [hxs]
          exact list_sum_neg_of_forall_neg (y :: ys) (by simp)
            (fun z hz => hneg z (by rw [hxs]; exact List.mem_cons_of_mem x hz))
        rw [hxs] at hs
        simpa using add_neg hx hs

/-- Helper: the net present value of a nonempty all-negative cashflow
sequence is negative at every discount rate above -1, so the polynomial the
IRR library solves has no admissible root there. -/
theorem npv_neg_of_all_neg (cf : List ℚ) (r : ℚ) (hne : cf ≠ [])
    (hneg : ∀ x ∈ cf, x < 0) (hr : -1 < r) : npv cf r < 0 := by
  unfold npv
  apply list_sum_neg_of_forall_neg
  · simp [hne]
  · intro y hy
    simp only [List.mem_map] at hy
    obtain ⟨p, hp, rfl⟩ := hy
    have hmem : cf[p.1]? = some p.2 := List.mem_enum_iff_getElem?.mp hp
    have hx : p.2 ∈ cf := List.getElem?_mem hmem
    exact div_neg_of_neg_of_pos (hneg _ hx) (pow_pos (by linarith) _)

/-- C1 counterexample: for the validated configuration with 2 total
installments, current installment 1, full value 100, frequency 1, no
previous installments and bid 60 (default winner installment 50), the prize
quantity 100 - 60 - 50 is negative and `calculate_prize_amount` fails with
the base `ChitFundAnalysisError` class, not with the `CalculationError`
subtype the claim names; no code path raises `CalculationError`. -/
theorem C1_counterexample :
    resultErrKind ((mkChitFundConfig ⟨2, 1, 100, 1, [], 60, none⟩).bind
      ChitFundAnalyzer.calculate_prize_amount) = some ErrKind.chitAnalysisError ∧
    some ErrKind.chitAnalysisError ≠ some ErrKind.chitCalculationError := by
  refine ⟨?_, by decide⟩
  norm_num [mkChitFundConfig, ChitFundAnalyzer.calculate_prize_amount,
    ChitFundConfig.get_winner_installment_amount, Except.bind, resultErrKind]

/-- C1 (amended): for every validated `ChitFundConfig`,
`calculate_prize_amount` returns exactly
`full_chit_value - bid_amount - get_winner_installment_amount()` when that
quantity is positive and fails with the base `ChitFundAnalysisError` (the
`CalculationError` subtype is never raised) whenever that quantity is ≤ 0;
for the concrete configuration `total_installments=14`,
`current_installment_number=5`, `full_chit_value=700000`,
`chit_frequency_per_year=2`,
`previous_installments=[42000,40000,40000,43000]`, `bid_amount=100000`
(default winner installment 50000) it returns 550000. -/
theorem C1_prize_amount (r : RawConfig) (c : ChitFundConfig)
    (h : mkChitFundConfig r = .ok c) :
    (0 < c.full_chit_value - c.bid_amount - c.get_winner_installment_amount →
      ChitFundAnalyzer.calculate_prize_amount c =
        .ok (c.full_chit_value - c.bid_amount - c.get_winner_installment_amount)) ∧
    (c.full_chit_value - c.bid_amount - c.get_winner_installment_amount ≤ 0 →
      ChitFundAnalyzer.calculate_prize_amount c =
        .error ⟨.chitAnalysisError,
          "Prize amount must be positive. Check bid amount and winner installment values."⟩) ∧
    (mkChitFundConfig ⟨14, 5, 700000, 2, [42000, 40000, 40000, 43000], 100000, none⟩).bind
      ChitFundAnalyzer.calculate_prize_amount = .ok 550000 := by
  refine ⟨?_, ?_, by
    norm_num [mkChitFundConfig, ChitFundAnalyzer.calculate_prize_amount,
      ChitFundConfig.get_winner_installment_amount, Except.bind]⟩
  · intro hpos
    simp only [ChitFundAnalyzer.calculate_prize_amount]
    rw [if_neg (not_le.mpr hpos)]
  · intro hnp
    simp only [ChitFundAnalyzer.calculate_prize_amount]
    rw [if_pos hnp]

/-- C1 witness: the amended theorem applied to the concrete reference
configuration, yielding the 550000 prize. -/
theorem C1_prize_amount_witness :
    mkChitFundConfig ⟨14, 5, 700000, 2, [42000, 40000, 40000, 43000], 100000, none⟩ =
      .ok ⟨14, 5, 700000, 2, [42000, 40000, 40000, 43000], 100000, none⟩ ∧
    ChitFundAnalyzer.calculate_prize_amount
      ⟨14, 5, 700000, 2, [42000, 40000, 40000, 43000], 100000, none⟩ = .ok 550000 := by
  have h1 : mkChitFundConfig ⟨14, 5, 700000, 2, [42000, 40000, 40000, 43000], 100000, none⟩ =
      .ok ⟨14, 5, 700000, 2, [42000, 40000, 40000, 43000], 100000, none⟩ := by decide
  refine ⟨h1, ?_⟩
  have h2 := (C1_prize_amount _ _ h1).1
    (by norm_num [ChitFundConfig.get_winner_installment_amount])
  rw [h2]
  norm_num [ChitFundConfig.get_winner_installment_amount]

/-- C2: for every validated `ChitFundConfig` and every prize amount,
`generate_cashflows` returns the negated previous installments, then the
single prize inflow, then `-winner_installment` repeated
`total_installments - current_installment_number` times; the sequence has
length `total_installments`, and when the current installment equals the
total the sequence ends at the prize inflow. -/
theorem C2_generate_cashflows (r : RawConfig) (c : ChitFundConfig) (prize_amount : ℚ)
    (h : mkChitFundConfig r = .ok c) :
    ChitFundAnalyzer.generate_cashflows c prize_amount =
      c.previous_installments.map (fun amount => -amount) ++ [prize_amount] ++
        List.replicate (c.total_installments - c.current_installment_number).toNat
          (-c.get_winner_installment_amount) ∧
    (ChitFundAnalyzer.generate_cashflows c prize_amount).length = c.total_installments.toNat ∧
    (c.current_installment_number = c.total_installments →
      (ChitFundAnalyzer.generate_cashflows c prize_amount).getLast? = some prize_amount) := by
  obtain ⟨-, -, -, -, -, -, -, -, hcpos, hle, -, -, -, hlen, -, -⟩ := mkChitFundConfig_ok r c h
  refine ⟨rfl, ?_, ?_⟩
  · simp only [ChitFundAnalyzer.generate_cashflows, List.length_append, List.length_map,
      List.length_replicate, List.length_singleton]
    omega
  · intro heq
    simp [ChitFundAnalyzer.generate_cashflows, heq, List.getLast?_concat]

/-- C2 witness: the theorem applied to the concrete reference configuration
with its 550000 prize, a 14-entry sequence ending in the winner
installments. -/
theorem C2_generate_cashflows_witness :
    ChitFundAnalyzer.generate_cashflows
        ⟨14, 5, 700000, 2, [42000, 40000, 40000, 43000], 100000, none⟩ 550000 =
      [-42000, -40000, -40000, -43000, 550000, -50000, -50000, -50000, -50000,
        -50000, -50000, -50000, -50000, -50000] ∧
    (ChitFundAnalyzer.generate_cashflows
        ⟨14, 5, 700000, 2, [42000, 40000, 40000, 43000], 100000, none⟩ 550000).length = 14 := by
  have h := C2_generate_cashflows ⟨14, 5, 700000, 2, [42000, 40000, 40000, 43000], 100000, none⟩
    ⟨14, 5, 700000, 2, [42000, 40000, 40000, 43000], 100000, none⟩ 550000 (by decide)
  refine ⟨?_, ?_⟩
  · rw [h.1]
    norm_num [ChitFundConfig.get_winner_installment_amount]
    decide
  · rw [h.2.1]; decide

/-- C3: every successfully constructed `ChitFundConfig` satisfies
`len(previous_installments) = current_installment_number - 1`, and every
attempted construction with a mismatching length fails with a validation
error (the pydantic `ValidationError` raised by the
`validate_previous_installments_count` validator), never succeeding. -/
theorem C3_previous_count_invariant :
    (∀ (r : RawConfig) (c : ChitFundConfig), mkChitFundConfig r = .ok c →
      (c.previous_installments.length : ℤ) = c.current_installment_number - 1) ∧
    (∀ r : RawConfig,
      (r.previous_installments.length : ℤ) ≠ r.current_installment_number - 1 →
      ∃ e : PyErr, mkChitFundConfig r = .error e ∧
        e.kind = ErrKind.pydanticValidationError) := by
  constructor
  · intro r c h
    obtain ⟨-, -, -, -, -, -, -, -, -, -, -, -, -, hlen, -, -⟩ := mkChitFundConfig_ok r c h
    exact hlen
  · intro r hne
    cases hm : mkChitFundConfig r with
    | error e => exact ⟨e, rfl, mkChitFundConfig_error_kind r e hm⟩
    | ok c =>
        obtain ⟨-, hcur, -, -, hprev, -, -, -, -, -, -, -, -, hlen, -, -⟩ :=
          mkChitFundConfig_ok r c hm
        rw [hprev, hcur] at hlen
        exact absurd hlen hne

/-- C3 witness: the invariant at the concrete reference configuration, and
the guaranteed failure of a construction attempt whose previous-installment
list has length 1 instead of 4. -/
theorem C3_previous_count_invariant_witness :
    ((⟨14, 5, 700000, 2, [42000, 40000, 40000, 43000], 100000, none⟩ :
        ChitFundConfig).previous_installments.length : ℤ) = 5 - 1 ∧
    ∃ e : PyErr, mkChitFundConfig ⟨14, 5, 700000, 2, [42000], 100000, none⟩ = .error e ∧
      e.kind = ErrKind.pydanticValidationError := by
  constructor
  · exact C3_previous_count_invariant.1
      ⟨14, 5, 700000, 2, [42000, 40000, 40000, 43000], 100000, none⟩
      ⟨14, 5, 700000, 2, [42000, 40000, 40000, 43000], 100000, none⟩ (by decide)
  · exact C3_previous_count_invariant.2 ⟨14, 5, 700000, 2, [42000], 100000, none⟩ (by decide)

/-- C5 counterexample: constructing a configuration with
`bid_amount = full_chit_value = 100` fails with the pydantic framework
`ValidationError`, not with the package class `ConfigurationError`; moreover
in `exceptions.py` the class `ConfigurationError` is a sibling of the
package `ValidationError` (both subclass `ChitFundAnalysisError` directly),
not its subtype as the claim states. -/
theorem C5_counterexample :
    resultErrKind (mkChitFundConfig ⟨10, 1, 100, 12, [], 100, none⟩) =
      some ErrKind.pydanticValidationError ∧
    some ErrKind.pydanticValidationError ≠ some ErrKind.chitConfigurationError ∧
    isSubclassOf ErrKind.chitConfigurationError ErrKind.chitValidationError = false := by
  decide

/-- C5 (amended): for every set of raw field values with
`bid_amount ≥ full_chit_value`, construction always fails — with the
pydantic framework `ValidationError` (the package class
`ConfigurationError`, which subclasses `ChitFundAnalysisError` rather than
the package `ValidationError`, is never raised) — so no validated
configuration exists and, since `generate_cashflows` consumes only validated
configurations, no cashflow sequence is ever produced from such inputs. -/
theorem C5_bid_ge_full_always_fails (r : RawConfig)
    (hbid : r.bid_amount ≥ r.full_chit_value) :
    ∃ e : PyErr, mkChitFundConfig r = .error e ∧
      e.kind = ErrKind.pydanticValidationError := by
  cases hm : mkChitFundConfig r with
  | error e => exact ⟨e, rfl, mkChitFundConfig_error_kind r e hm⟩
  | ok c =>
      obtain ⟨-, -, hfull, -, -, hbid2, -, -, -, -, -, -, -, -, -, hlt⟩ :=
        mkChitFundConfig_ok r c hm
      rw [hbid2, hfull] at hlt
      exact absurd hbid (not_le.mpr hlt)

/-- C5 witness: the amended theorem at a concrete input with the bid equal
to the full chit value. -/
theorem C5_bid_ge_full_always_fails_witness :
    ∃ e : PyErr, mkChitFundConfig ⟨10, 1, 100, 12, [], 100, none⟩ = .error e ∧
      e.kind = ErrKind.pydanticValidationError :=
  C5_bid_ge_full_always_fails ⟨10, 1, 100, 12, [], 100, none⟩ (by decide)

/-- C7: in the comparative engine, a failed IRR solve (a raised solver
exception or a `None`/NaN root) yields `annual_irr = 0.0` for that scenario,
and the enclosing comparison step is a total function that returns all three
scenarios; the IRR failure is never propagated as an exception. -/
theorem C7_irr_failure_fallback :
    (∀ (frequency : ℕ) (msg : String),
      ComparativeAnalyzer.calculate_annual_irr frequency (.raised msg) = 0) ∧
    (∀ frequency : ℕ,
      ComparativeAnalyzer.calculate_annual_irr frequency (.value none) = 0) ∧
    (∀ s1 s2 s3 : ComparisonScenario,
      (ComparativeAnalyzer.compareRank s1 s2 s3).scenario1 = s1 ∧
      (ComparativeAnalyzer.compareRank s1 s2 s3).scenario2 = s2 ∧
      (ComparativeAnalyzer.compareRank s1 s2 s3).scenario3 = s3) :=
  ⟨fun _ _ => rfl, fun _ => rfl, fun _ _ _ => ⟨rfl, rfl, rfl⟩⟩

/-- C9: `calculate_sip_future_value` at `annual_rate = 0` returns exactly
the sum of the installments, and `calculate_lump_sum_future_value` at
`periods = 0` returns exactly the principal, for every growth factor, every
installment list, every principal and every annual rate. -/
theorem C9_zero_rate_identities :
    (∀ (growthFactor : ℕ → ℚ) (installments : List ℚ),
      calculate_sip_future_value growthFactor installments 0 = installments.sum) ∧
    (∀ (growthFactor principal annual_rate : ℚ),
      calculate_lump_sum_future_value growthFactor principal annual_rate 0 = principal) := by
  constructor
  · intro gf installments
    simp [calculate_sip_future_value]
  · intro gf principal annual_rate
    simp [calculate_lump_sum_future_value]

/-- C10: for every validated `ChitFundConfig`, the `ChitFundAnalyzer`
constructor check succeeds: its error branch for an empty
`previous_installments` with `current_installment_number > 1` is unreachable
because the construction invariant forces the list to be nonempty exactly
when the current installment number exceeds 1. -/
theorem C10_analyzer_init_never_fails (r : RawConfig) (c : ChitFundConfig)
    (h : mkChitFundConfig r = .ok c) :
    ChitFundAnalyzer.validate_config c = .ok () := by
  obtain ⟨-, -, -, -, -, -, -, -, hcpos, -, -, -, -, hlen, -, -⟩ := mkChitFundConfig_ok r c h
  unfold ChitFundAnalyzer.validate_config
  split_ifs with h1 h2
  · exfalso
    rw [List.isEmpty_iff] at h1
    rw [h1] at hlen
    simp only [List.length_nil, Nat.cast_zero] at hlen
    omega
  · rfl
  · rfl

/-- C10 witness: the theorem at the concrete reference configuration. -/
theorem C10_analyzer_init_never_fails_witness :
    ChitFundAnalyzer.validate_config
      ⟨14, 5, 700000, 2, [42000, 40000, 40000, 43000], 100000, none⟩ = .ok () :=
  C10_analyzer_init_never_fails
    ⟨14, 5, 700000, 2, [42000, 40000, 40000, 43000], 100000, none⟩
    ⟨14, 5, 700000, 2, [42000, 40000, 40000, 43000], 100000, none⟩ (by decide)

/-- C4 counterexample: the sequence `[-1000, -1000]` violates the claimed
sign precondition (`validate_cashflow_signs` is false on it) and its NPV is
negative at a sample admissible rate, so the library root finder yields NaN
there; `calculate_irr` then fails with the base `ChitFundAnalysisError` and
the wrapped generic message, not with `CalculationError` and a message
mentioning a sign change — no sign-change precondition is checked. -/
theorem C4_counterexample :
    validate_cashflow_signs [-1000, -1000] = false ∧
    resultErrKind (ChitFundAnalyzer.calculate_irr_from_root none 2) =
      some ErrKind.chitAnalysisError ∧
    some ErrKind.chitAnalysisError ≠ some ErrKind.chitCalculationError ∧
    npv [-1000, -1000] (1 / 10) < 0 := by
  refine ⟨by decide, rfl, by decide, ?_⟩
  norm_num [npv, List.enum, List.enumFrom]

/-- C4 (amended): `validate_cashflow_signs` computes the
has-positive-and-has-negative precondition but no caller invokes it;
`calculate_irr` never fails with `CalculationError` (for any library
outcome), and when the library finds no root — which is forced for an
all-negative sequence, whose NPV is nonzero at every rate above -1 — it
fails with the base `ChitFundAnalysisError` carrying the wrapped message
`IRR calculation error: IRR calculation failed. Check cashflow values.`. -/
theorem C4_no_sign_change_behavior :
    (∀ (libraryRoot : Option ℚ) (frequency : ℕ),
      resultErrKind (ChitFundAnalyzer.calculate_irr_from_root libraryRoot frequency) ≠
        some ErrKind.chitCalculationError) ∧
    (∀ frequency : ℕ,
      ChitFundAnalyzer.calculate_irr_from_root none frequency =
        .error ⟨.chitAnalysisError,
          "IRR calculation error: IRR calculation failed. Check cashflow values."⟩) ∧
    (∀ cashflows : List ℚ,
      validate_cashflow_signs cashflows =
        (cashflows.any (fun cf => cf > 0) && cashflows.any (fun cf => cf < 0))) ∧
    (∀ (cashflows : List ℚ) (r : ℚ), cashflows ≠ [] → (∀ x ∈ cashflows, x < 0) →
      -1 < r → npv cashflows r ≠ 0) := by
  refine ⟨?_, fun _ => rfl, fun _ => rfl, ?_⟩
  · intro root freq
    cases root <;> simp [ChitFundAnalyzer.calculate_irr_from_root, resultErrKind]
  · intro cf r hne hneg hr
    exact ne_of_lt (npv_neg_of_all_neg cf r hne hneg hr)

/-- C4 witness: the amended theorem at the concrete all-negative sequence
`[-100, -200]` and rate one half. -/
theorem C4_no_sign_change_behavior_witness :
    resultErrKind (ChitFundAnalyzer.calculate_irr_from_root none 2) ≠
      some ErrKind.chitCalculationError ∧
    npv [-100, -200] (1 / 2) ≠ 0 := by
  refine ⟨C4_no_sign_change_behavior.1 none 2, ?_⟩
  exact C4_no_sign_change_behavior.2.2.2 [-100, -200] (1 / 2)
    (by decide) (by decide) (by norm_num)

/-- Helper: closed form of descending insertion into a one-element list. -/
theorem insertDesc_single (x a : ℚ) :
    ComparativeAnalyzer.insertDesc x [a] = if x ≥ a then [x, a] else [a, x] := by
  simp only [ComparativeAnalyzer.insertDesc]

/-- Helper: closed form of descending insertion into a two-element list. -/
theorem insertDesc_pair (x a b : ℚ) :
    ComparativeAnalyzer.insertDesc x [a, b] =
      if x ≥ a then [x, a, b] else if x ≥ b then [a, x, b] else [a, b, x] := by
  simp only [ComparativeAnalyzer.insertDesc]
  split_ifs <;> rfl

/-- Helper: the descending sort of a three-element list, one insertion
unfolded. -/
theorem sortDesc_triple (v1 v2 v3 : ℚ) :
    ComparativeAnalyzer.sortDesc [v1, v2, v3] =
      ComparativeAnalyzer.insertDesc v1 (if v2 ≥ v3 then [v2, v3] else [v3, v2]) := by
  simp only [ComparativeAnalyzer.sortDesc, ComparativeAnalyzer.insertDesc]

/-- Helper: the advantage computed from the descending sort equals the
maximum minus the mathematical second-largest of the three values. -/
theorem advantageAmount_spec (v1 v2 v3 : ℚ) :
    ComparativeAnalyzer.advantageAmount v1 v2 v3 =
      max v1 (max v2 v3) - secondLargest3 v1 v2 v3 := by
  unfold ComparativeAnalyzer.advantageAmount
  rw [sortDesc_triple]
  rcases le_or_lt v3 v2 with h23 | h23
  · rw [if_pos (show v2 ≥ v3 from h23), insertDesc_pair]
    rcases le_or_lt v2 v1 with h12 | h12
    · rw [if_pos (show v1 ≥ v2 from h12)]
      show v1 - v2 = _
      simp only [secondLargest3, max_def, min_def]
      split_ifs <;> linarith
    · rw [if_neg (show ¬ v1 ≥ v2 from not_le.mpr h12)]
      rcases le_or_lt v3 v1 with h13 | h13
      · rw [if_pos (show v1 ≥ v3 from h13)]
        show v2 - v1 = _
        simp only [secondLargest3, max_def, min_def]
        split_ifs <;> linarith
      · rw [if_neg (show ¬ v1 ≥ v3 from not_le.mpr h13)]
        show v2 - v3 = _
        simp only [secondLargest3, max_def, min_def]
        split_ifs <;> linarith
  · rw [if_neg (show ¬ v2 ≥ v3 from not_le.mpr h23), insertDesc_pair]
    rcases le_or_lt v3 v1 with h13 | h13
    · rw [if_pos (show v1 ≥ v3 from h13)]
      show v1 - v3 = _
      simp only [secondLargest3, max_def, min_def]
      split_ifs <;> linarith
    · rw [if_neg (show ¬ v1 ≥ v3 from not_le.mpr h13)]
      rcases le_or_lt v2 v1 with h12 | h12
      · rw [if_pos (show v1 ≥ v2 from h12)]
        show v3 - v1 = _
        simp only [secondLargest3, max_def, min_def]
        split_ifs <;> linarith
      · rw [if_neg (show ¬ v1 ≥ v2 from not_le.mpr h12)]
        show v3 - v2 = _
        simp only [secondLargest3, max_def, min_def]
        split_ifs <;> linarith

/-- Helper: the ranking label selected by the comparison step belongs to a
scenario attaining the maximal value. -/
theorem bestScenarioName_spec (v1 v2 v3 : ℚ) :
    (ComparativeAnalyzer.bestScenarioName v1 v2 v3 = "Early Win + Lump Sum" ∧
        v1 = max v1 (max v2 v3)) ∨
    (ComparativeAnalyzer.bestScenarioName v1 v2 v3 = "Late Win" ∧
        v2 = max v1 (max v2 v3)) ∨
    (ComparativeAnalyzer.bestScenarioName v1 v2 v3 = "SIP Investment" ∧
        v3 = max v1 (max v2 v3)) := by
  simp only [ComparativeAnalyzer.bestScenarioName]
  split_ifs with h1 h2 h2
  · have a : v1 < v2 := h1
    have b : v2 < v3 := h2
    right; right
    refine ⟨rfl, ?_⟩
    simp only [max_def]
    split_ifs <;> linarith
  · have a : v1 < v2 := h1
    have b : v3 ≤ v2 := not_lt.mp h2
    right; left
    refine ⟨rfl, ?_⟩
    simp only [max_def]
    split_ifs <;> linarith
  · have a : v2 ≤ v1 := not_lt.mp h1
    have b : v1 < v3 := h2
    right; right
    refine ⟨rfl, ?_⟩
    simp only [max_def]
    split_ifs <;> linarith
  · have a : v2 ≤ v1 := not_lt.mp h1
    have b : v3 ≤ v1 := not_lt.mp h2
    left
    refine ⟨rfl, ?_⟩
    simp only [max_def]
    split_ifs <;> linarith

/-- C6 counterexample: with scenario 2 (stored `scenario_name`
`Late Win (Last Installment)`) attaining the strictly largest
`final_absolute_value`, the comparison result sets `best_scenario_name` to
the shortened ranking label `Late Win`, which differs from the
`scenario_name` of every scenario in the result — so `best_scenario_name`
is not the name of the winning scenario as the claim states. -/
theorem C6_counterexample :
    (ComparativeAnalyzer.compareRank
        ⟨ComparativeAnalyzer.earlyWinScenarioName, 0, 1⟩
        ⟨ComparativeAnalyzer.lateWinScenarioName, 0, 3⟩
        ⟨ComparativeAnalyzer.sipScenarioName, 0, 2⟩).best_scenario_name = "Late Win" ∧
    (ComparativeAnalyzer.compareRank
        ⟨ComparativeAnalyzer.earlyWinScenarioName, 0, 1⟩
        ⟨ComparativeAnalyzer.lateWinScenarioName, 0, 3⟩
        ⟨ComparativeAnalyzer.sipScenarioName, 0, 2⟩).scenario2.scenario_name = "Late Win (Last Installment)" ∧
    (ComparativeAnalyzer.compareRank
        ⟨ComparativeAnalyzer.earlyWinScenarioName, 0, 1⟩
        ⟨ComparativeAnalyzer.lateWinScenarioName, 0, 3⟩
        ⟨ComparativeAnalyzer.sipScenarioName, 0, 2⟩).best_scenario_name ≠
      (ComparativeAnalyzer.compareRank
        ⟨ComparativeAnalyzer.earlyWinScenarioName, 0, 1⟩
        ⟨ComparativeAnalyzer.lateWinScenarioName, 0, 3⟩
        ⟨ComparativeAnalyzer.sipScenarioName, 0, 2⟩).scenario1.scenario_name ∧
    (ComparativeAnalyzer.compareRank
        ⟨ComparativeAnalyzer.earlyWinScenarioName, 0, 1⟩
        ⟨ComparativeAnalyzer.lateWinScenarioName, 0, 3⟩
        ⟨ComparativeAnalyzer.sipScenarioName, 0, 2⟩).best_scenario_name ≠
      (ComparativeAnalyzer.compareRank
        ⟨ComparativeAnalyzer.earlyWinScenarioName, 0, 1⟩
        ⟨ComparativeAnalyzer.lateWinScenarioName, 0, 3⟩
        ⟨ComparativeAnalyzer.sipScenarioName, 0, 2⟩).scenario2.scenario_name ∧
    (ComparativeAnalyzer.compareRank
        ⟨ComparativeAnalyzer.earlyWinScenarioName, 0, 1⟩
        ⟨ComparativeAnalyzer.lateWinScenarioName, 0, 3⟩
        ⟨ComparativeAnalyzer.sipScenarioName, 0, 2⟩).best_scenario_name ≠
      (ComparativeAnalyzer.compareRank
        ⟨ComparativeAnalyzer.earlyWinScenarioName, 0, 1⟩
        ⟨ComparativeAnalyzer.lateWinScenarioName, 0, 3⟩
        ⟨ComparativeAnalyzer.sipScenarioName, 0, 2⟩).scenario3.scenario_name ∧
    (ComparativeAnalyzer.compareRank
        ⟨ComparativeAnalyzer.earlyWinScenarioName, 0, 1⟩
        ⟨ComparativeAnalyzer.lateWinScenarioName, 0, 3⟩
        ⟨ComparativeAnalyzer.sipScenarioName, 0, 2⟩).scenario2.final_absolute_value =
      max ((ComparativeAnalyzer.compareRank
        ⟨ComparativeAnalyzer.earlyWinScenarioName, 0, 1⟩
        ⟨ComparativeAnalyzer.lateWinScenarioName, 0, 3⟩
        ⟨ComparativeAnalyzer.sipScenarioName, 0, 2⟩).scenario1.final_absolute_value)
        (max ((ComparativeAnalyzer.compareRank
        ⟨ComparativeAnalyzer.earlyWinScenarioName, 0, 1⟩
        ⟨ComparativeAnalyzer.lateWinScenarioName, 0, 3⟩
        ⟨ComparativeAnalyzer.sipScenarioName, 0, 2⟩).scenario2.final_absolute_value)
          ((ComparativeAnalyzer.compareRank
        ⟨ComparativeAnalyzer.earlyWinScenarioName, 0, 1⟩
        ⟨ComparativeAnalyzer.lateWinScenarioName, 0, 3⟩
        ⟨ComparativeAnalyzer.sipScenarioName, 0, 2⟩).scenario3.final_absolute_value)) ∧
    (ComparativeAnalyzer.compareRank
        ⟨ComparativeAnalyzer.earlyWinScenarioName, 0, 1⟩
        ⟨ComparativeAnalyzer.lateWinScenarioName, 0, 3⟩
        ⟨ComparativeAnalyzer.sipScenarioName, 0, 2⟩).advantage_amount = 1 := by
  refine ⟨rfl, rfl, by decide, by decide, by decide, ?_, ?_⟩
  · show (3:ℚ) = max 1 (max 3 2)
    norm_num [max_def]
  · show ComparativeAnalyzer.advantageAmount 1 3 2 = 1
    norm_num [ComparativeAnalyzer.advantageAmount, ComparativeAnalyzer.sortDesc,
      ComparativeAnalyzer.insertDesc]

/-- C6 (amended): `best_scenario_name` is the ranking label of a scenario
attaining the maximal `final_absolute_value` (the label equals the stored
`scenario_name` for scenarios 1 and 3 but is the shortened dict key
`Late Win` for scenario 2, whose `scenario_name` is
`Late Win (Last Installment)`), and `advantage_amount` is the maximum minus
the second-largest of the three `final_absolute_value`s; the ranking reads
only the `final_absolute_value` fields, never the scenarios' IRRs. -/
theorem C6_ranking (s1 s2 s3 : ComparisonScenario) :
    (((ComparativeAnalyzer.compareRank s1 s2 s3).best_scenario_name = "Early Win + Lump Sum" ∧
        s1.final_absolute_value = max s1.final_absolute_value
          (max s2.final_absolute_value s3.final_absolute_value)) ∨
      ((ComparativeAnalyzer.compareRank s1 s2 s3).best_scenario_name = "Late Win" ∧
        s2.final_absolute_value = max s1.final_absolute_value
          (max s2.final_absolute_value s3.final_absolute_value)) ∨
      ((ComparativeAnalyzer.compareRank s1 s2 s3).best_scenario_name = "SIP Investment" ∧
        s3.final_absolute_value = max s1.final_absolute_value
          (max s2.final_absolute_value s3.final_absolute_value))) ∧
    (ComparativeAnalyzer.compareRank s1 s2 s3).advantage_amount =
      max s1.final_absolute_value (max s2.final_absolute_value s3.final_absolute_value) -
        secondLargest3 s1.final_absolute_value s2.final_absolute_value
          s3.final_absolute_value :=
  ⟨bestScenarioName_spec s1.final_absolute_value s2.final_absolute_value
      s3.final_absolute_value,
    advantageAmount_spec s1.final_absolute_value s2.final_absolute_value
      s3.final_absolute_value⟩

/-- C8 counterexample: at `total_installments = 2` (with bounds 0 and 100)
the interpolation returns the single element `min`, so the last element is 0
and not within any small tolerance of `max = 100`, refuting the claimed
last-element bound for every N above 0. -/
theorem C8_counterexample :
    calculate_varying_installments 700000 2 0 100 = [0] ∧
    (calculate_varying_installments 700000 2 0 100).getLast? = some 0 ∧
    ¬ ((0 : ℚ) = 100) := by
  refine ⟨?_, ?_, by norm_num⟩
  · norm_num [calculate_varying_installments, show List.range 1 = [0] from rfl]
  · norm_num [calculate_varying_installments, show List.range 1 = [0] from rfl]

/-- C8 (amended): for every `total_installments = N > 0` and bounds
`min ≤ max`, the interpolation returns a sequence of length `N - 1` whose
element `i` equals `min + (max - min) * (i / max 1 (N - 2))` exactly (the
rational value the float computation approximates); the sequence is
non-decreasing, its first element equals `min` whenever it exists (N ≥ 2),
and its last element equals `max` only for N ≥ 3 — for N = 2 the sequence is
`[min]`, whose last element is `min`, not `max`. -/
theorem C8_interpolation (full_chit_value : ℚ) (N : ℕ) (lo hi : ℚ)
    (hN : 0 < N) (hle : lo ≤ hi) :
    (calculate_varying_installments full_chit_value N lo hi).length = N - 1 ∧
    (∀ i : ℕ, i < N - 1 →
      (calculate_varying_installments full_chit_value N lo hi)[i]? =
        some (lo + (hi - lo) * ((i : ℚ) / ((max 1 (N - 2) : ℕ) : ℚ)))) ∧
    List.Sorted (· ≤ ·) (calculate_varying_installments full_chit_value N lo hi) ∧
    (2 ≤ N → (calculate_varying_installments full_chit_value N lo hi).head? = some lo) ∧
    (3 ≤ N → (calculate_varying_installments full_chit_value N lo hi).getLast? = some hi) ∧
    (N = 2 → calculate_varying_installments full_chit_value N lo hi = [lo]) := by
  have hc : (0:ℚ) < ((max 1 (N - 2) : ℕ) : ℚ) := by
    have h1 : (1:ℕ) ≤ max 1 (N - 2) := le_max_left _ _
    exact_mod_cast Nat.lt_of_lt_of_le Nat.zero_lt_one h1
  refine ⟨?_, ?_, ?_, ?_, ?_, ?_⟩
  · simp only [calculate_varying_installments, List.length_map, List.length_range]
  · intro i hi2
    simp only [calculate_varying_installments, List.getElem?_map,
      List.getElem?_range hi2, Option.map_some']
  · unfold calculate_varying_installments List.Sorted
    rw [List.pairwise_map]
    refine (List.pairwise_lt_range _).imp ?_
    intro a b hab
    dsimp only
    have hcast : (a:ℚ) ≤ (b:ℚ) := by exact_mod_cast hab.le
    have hdiv := div_le_div_of_nonneg_right hcast hc.le
    have hmul := mul_le_mul_of_nonneg_left hdiv (sub_nonneg.mpr hle)
    linarith
  · intro h2
    obtain ⟨m, hm⟩ : ∃ m, N - 1 = m + 1 := ⟨N - 2, by omega⟩
    rw [calculate_varying_installments, hm, List.range_succ_eq_map]
    simp
  · intro h3
    have hlen : (calculate_varying_installments full_chit_value N lo hi).length = N - 1 := by
      simp only [calculate_varying_installments, List.length_map, List.length_range]
    rw [List.getLast?_eq_getElem?, hlen]
    have hlt : N - 1 - 1 < N - 1 := by omega
    simp only [calculate_varying_installments, List.getElem?_map,
      List.getElem?_range hlt, Option.map_some']
    have he : N - 1 - 1 = N - 2 := by omega
    have hmax : max 1 (N - 2) = N - 2 := max_eq_right (by omega)
    rw [he, hmax]
    have hne : ((N - 2 : ℕ) : ℚ) ≠ 0 := Nat.cast_ne_zero.mpr (by omega)
    rw [div_self hne]
    norm_num
  · intro h2
    subst h2
    norm_num [calculate_varying_installments, show List.range 1 = [0] from rfl]

/-- C8 witness: the amended theorem at `N = 5` with bounds 10 and 40,
giving the schedule 10, 20, 30, 40. -/
theorem C8_interpolation_witness :
    (calculate_varying_installments 700000 5 10 40).length = 4 ∧
    List.Sorted (· ≤ ·) (calculate_varying_installments 700000 5 10 40) ∧
    (calculate_varying_installments 700000 5 10 40).head? = some 10 ∧
    (calculate_varying_installments 700000 5 10 40).getLast? = some 40 := by
  have h := C8_interpolation 700000 5 10 40 (by norm_num) (by norm_num)
  exact ⟨h.1, h.2.2.1, h.2.2.2.1 (by norm_num), h.2.2.2.2.1 (by norm_num)⟩
